import Mathlib

/-!
Shallow embedding of `src/download_acs.py` (census_pecas_download).

The file embeds the pure data-processing core of the script:
  * `chunk`            — the variable-list chunker (lines 28-31);
  * `make_geoid`       — GEOID concatenation (lines 33-35, and line 228);
  * the per-county chunk merge of `fetch_table` (lines 75-84);
  * the per-feature pipeline of `fetch_blockgroup_geometries`
    (lines 167-239): property extraction, identifier normalization,
    GEOID-based derivation, validation and record emission;
  * `geojson_to_wkt`   — the GeoJSON→WKT serializer (lines 265-316).

Python strings are Lean `String`s; Python `None`-able dictionary lookups
are `Option String`; a raised `IndexError` is the explicit constructor
`PyResult.indexError`.  GeoJSON coordinate values are a type parameter
`α` with a `ToString` instance, mirroring the fact that the Python code
only ever indexes and string-formats them (`f"{x} {y}"`).
-/

namespace DownloadAcs

/-- Python `"".join(ch for ch in s if ch.isdigit())` from the nested
`digits` helper (lines 191-192).  `Char.isDigit` models `str.isdigit`
on the ASCII data this script handles. -/
def digits (s : String) : String :=
  String.mk (s.data.filter Char.isDigit)

/-- Python `s.zfill(width)` as used on digit-only strings (no sign
handling needed): left-pad with `'0'` up to `width`. -/
def zfill (s : String) (width : Nat) : String :=
  if width ≤ s.length then s
  else String.mk (List.replicate (width - s.length) '0') ++ s

/-- Python `s.strip()`: remove leading and trailing whitespace. -/
def pstrip (s : String) : String :=
  String.mk (((s.data.dropWhile Char.isWhitespace).reverse.dropWhile
    Char.isWhitespace).reverse)

/-- Python slice `s[a:b]` for `a ≤ b` (as used with the constant
offsets 0:2, 2:5, 5:11, 11:12 and `[:1]`); clamps like Python. -/
def pyslice (s : String) (a b : Nat) : String :=
  String.mk ((s.data.drop a).take (b - a))

/-- Python truthiness-based `a or b` on strings. -/
def pyOr (a b : String) : String :=
  if a = "" then b else a

/-- Python `props.get(k) or ""`: an absent key (`none`) and an empty
string are both falsy and give `""`. -/
def getStr (o : Option String) : String :=
  match o with
  | none => ""
  | some s => if s = "" then "" else s

/-- Python generator `chunk(lst, n)` (lines 28-31): successive slices
`lst[i:i+n]` for `i in range(0, len(lst), n)`.  (`n = 0` would raise in
Python's `range`; the script only calls `chunk` with `n = 20`.) -/
def chunk (lst : List α) (n : Nat) : List (List α) :=
  match lst, n with
  | [], _ => []
  | _, 0 => []
  | x :: rest, m + 1 =>
      (x :: rest).take (m + 1) :: chunk ((x :: rest).drop (m + 1)) (m + 1)
termination_by lst.length
decreasing_by
  simp only [List.length_drop, List.length_cons]
  omega

/-- Column-wise `df["state"] + df["county"] + df["tract"] + df["block group"]`
of `make_geoid` (lines 33-35), and the synthesis f-string of line 228,
at the level of one row's four component strings. -/
def make_geoid (st co tr bg : String) : String :=
  st ++ co ++ tr ++ bg

/-- The GEOID-digit slicing of lines 216-219:
`g[0:2], g[2:5], g[5:11], g[11:12]` applied to `g = digits(geoid)`. -/
def derive_components (geoid : String) : String × String × String × String :=
  let g := digits geoid
  (pyslice g 0 2, pyslice g 2 5, pyslice g 5 11, pyslice g 11 12)

/-- GeoJSON geometry object as the script inspects it: a `"type"` tag and
a `"coordinates"` payload.  `other` covers every further GeoJSON type
(LineString, MultiPoint, ...), carrying its type string. -/
inductive Geometry (α : Type) where
  | polygon (coordinates : List (List (List α)))
  | multiPolygon (coordinates : List (List (List (List α))))
  | point (coordinates : List α)
  | other (tname : String)

/-- The value of `geom.get("type")`. -/
def Geometry.typeName : Geometry α → String
  | .polygon _ => "Polygon"
  | .multiPolygon _ => "MultiPolygon"
  | .point _ => "Point"
  | .other t => t

/-- Nested helper `xy_tuple` (lines 275-281): `pt[0], pt[1]`, with the
exception on a too-short point caught and turned into `None`. -/
def xy_tuple (pt : List α) : Option (α × α) :=
  match pt with
  | x :: y :: _ => some (x, y)
  | _ => none

/-- Python `f"{x} {y}"`. -/
def render_pt [ToString α] (x y : α) : String :=
  toString x ++ " " ++ toString y

/-- The inner vertex loop of `geojson_to_wkt` (lines 286-292 and
302-308): keep each point whose `xy_tuple` is valid, rendered
`"x y"`, skipping invalid points. -/
def ring_pts [ToString α] (ring : List (List α)) : List String :=
  ring.filterMap (fun pt => (xy_tuple pt).map (fun xy => render_pt xy.1 xy.2))

/-- The ring loop shared by the Polygon branch (lines 284-295) and the
per-polygon body of the MultiPolygon branch (lines 300-311): a ring
with no valid vertex is skipped, a non-empty one becomes
`"(" + ", ".join(pts) + ")"`. -/
def polygon_rings [ToString α] (coords : List (List (List α))) : List String :=
  coords.filterMap (fun ring =>
    let pts := ring_pts ring
    if pts.isEmpty then none
    else some ("(" ++ String.intercalate ", " pts ++ ")"))

/-- The polygon loop of the MultiPolygon branch (lines 298-313): a
polygon with no surviving ring is skipped, a non-empty one becomes
`"(" + ", ".join(rings) + ")"`. -/
def multipolygon_polys [ToString α]
    (coords : List (List (List (List α)))) : List String :=
  coords.filterMap (fun poly =>
    let rings := polygon_rings poly
    if rings.isEmpty then none
    else some ("(" ++ String.intercalate ", " rings ++ ")"))

/-- `geojson_to_wkt` (lines 265-316).  `none` input models a falsy
`geom` argument (line 270); the result is `none` exactly where Python
returns `None`. -/
def geojson_to_wkt [ToString α] : Option (Geometry α) → Option String
  | none => none
  | some (.polygon coords) =>
      let rings := polygon_rings coords
      if rings.isEmpty then none
      else some ("POLYGON(" ++ String.intercalate ", " rings ++ ")")
  | some (.multiPolygon coords) =>
      let polys := multipolygon_polys coords
      if polys.isEmpty then none
      else some ("MULTIPOLYGON(" ++ String.intercalate ", " polys ++ ")")
  | some (.point _) => none
  | some (.other _) => none

/-- The feature properties the per-feature loop reads (lines 177-188).
An absent key is `none`, mirroring `props.get(k)` returning `None`. -/
structure Props where
  GEOID : Option String := none
  GEOID10 : Option String := none
  BG_GEOID : Option String := none
  STATE : Option String := none
  COUNTY : Option String := none
  TRACT : Option String := none
  BLOCK_GROUP : Option String := none
deriving DecidableEq, Repr

/-- One GeoJSON feature as the loop body consumes it: `feat.get("properties")`
and `feat.get("geometry")`. -/
structure Feature (α : Type) where
  properties : Option Props := none
  geometry : Option (Geometry α) := none

/-- One emitted row of the geometry table (lines 230-237). -/
structure Record where
  GEOID : String
  STATE : String
  COUNTY : String
  TRACT : String
  BLOCK_GROUP : String
  wkt : String
deriving DecidableEq, Repr

/-- Lines 177-182: `str(props.get("GEOID") or props.get("GEOID10") or
props.get("BG_GEOID") or "").strip()` (on this endpoint the GEOID
properties are strings, so `str` is the identity). -/
def rawGeoid (p : Props) : String :=
  pstrip (pyOr (getStr p.GEOID) (pyOr (getStr p.GEOID10) (getStr p.BG_GEOID)))

/-- Lines 194-205: `d = digits(v); if d: v = d.zfill(width)` for
state (width 2), county (width 3) and tract (width 6). -/
def norm_pad (width : Nat) (v : String) : String :=
  let d := digits v
  if d = "" then v else zfill d width

/-- Lines 207-210: `d = digits(v); if d: v = d[:1]` for the block group. -/
def norm_bg (v : String) : String :=
  let d := digits v
  if d = "" then v else pyslice d 0 1

/-- Lines 185-210: the four components after the `(props.get(k) or "").strip()`
extraction and the normalization block, before GEOID-based derivation. -/
def normalizedComponents (p : Props) : String × String × String × String :=
  (norm_pad 2 (pstrip (getStr p.STATE)),
   norm_pad 3 (pstrip (getStr p.COUNTY)),
   norm_pad 6 (pstrip (getStr p.TRACT)),
   norm_bg (pstrip (getStr p.BLOCK_GROUP)))

/-- Lines 212-219: if a component is missing and a GEOID was supplied,
fill each missing component from the GEOID's digits when there are at
least 12 of them (`st = st or g[0:2]`, ...). -/
def fillFromGeoid (geoid st co tr bg : String) :
    String × String × String × String :=
  if (st = "" ∨ co = "" ∨ tr = "" ∨ bg = "") ∧ geoid ≠ "" then
    let g := digits geoid
    if 12 ≤ g.length then
      (pyOr st (pyslice g 0 2), pyOr co (pyslice g 2 5),
       pyOr tr (pyslice g 5 11), pyOr bg (pyslice g 11 12))
    else (st, co, tr, bg)
  else (st, co, tr, bg)

/-- Components of a feature's properties after normalization (lines
185-210) and GEOID-based derivation (lines 212-219). -/
def derivedComponents (p : Props) : String × String × String × String :=
  let n := normalizedComponents p
  fillFromGeoid (rawGeoid p) n.1 n.2.1 n.2.2.1 n.2.2.2

/-- Line 168: `props = feat.get("properties") or {}`. -/
def featureProps (f : Feature α) : Props :=
  f.properties.getD {}

/-- The whole per-feature body of the geometry fetcher (lines 167-239):
`none` where the Python loop hits a `continue`, `some r` where a record
is appended to `records`. -/
def processFeature [ToString α] (f : Feature α) : Option Record :=
  let props := featureProps f
  match f.geometry with
  | none => none
  | some geom =>
    if geom.typeName = "Polygon" ∨ geom.typeName = "MultiPolygon" then
      match geojson_to_wkt (some geom) with
      | none => none
      | some wkt =>
        if wkt = "" then none
        else
          let geoid := rawGeoid props
          let d := derivedComponents props
          if d.1 ≠ "" ∧ d.2.1 ≠ "" ∧ d.2.2.1 ≠ "" ∧ d.2.2.2 ≠ "" then
            if d.1.length = 2 ∧ d.2.1.length = 3 ∧ d.2.2.1.length = 6 ∧
                d.2.2.2.length = 1 then
              some { GEOID := if geoid = "" then
                       make_geoid d.1 d.2.1 d.2.2.1 d.2.2.2 else geoid,
                     STATE := d.1, COUNTY := d.2.1, TRACT := d.2.2.1,
                     BLOCK_GROUP := d.2.2.2, wkt := wkt }
            else none
          else none
    else none

/-- One data row of a chunk response: the geographic key columns
(`state`, `county`, `tract`, `block group`) the merge joins on, and the
remaining named columns (`NAME` and the variable columns). -/
structure DRow where
  key : List String
  cols : List (String × String)
deriving DecidableEq, Repr

/-- A chunk's parsed response, `pd.DataFrame(data[1:], columns=data[0])`
(line 67), as its list of rows. -/
def DataFrame := List DRow

/-- `part.drop(columns=["NAME"])` (line 79). -/
def dropNAME (df : DataFrame) : DataFrame :=
  df.map (fun r => { r with cols := r.cols.filter (fun c => c.1 ≠ "NAME") })

/-- `df_merged.merge(part, on=["state","county","tract","block group"],
how="left")` (lines 78-82), for the key-unique frames this API returns:
every left row is kept and gains the columns of the matching right row,
if any. -/
def mergeLeftOnKey (left right : DataFrame) : DataFrame :=
  left.map (fun lr =>
    match right.find? (fun rr => rr.key == lr.key) with
    | some rr => { lr with cols := lr.cols ++ rr.cols }
    | none => lr)

/-- Outcome of a Python expression that may raise `IndexError`. -/
inductive PyResult (α : Type) where
  | ok (val : α)
  | indexError
deriving DecidableEq

/-- The per-county chunk merge of `fetch_table` (lines 75-84):
`df_merged = df_chunks[0]` followed by the fold of `merge` over
`df_chunks[1:]`.  Subscripting the empty list raises `IndexError`. -/
def merge_chunks (df_chunks : List DataFrame) : PyResult DataFrame :=
  match df_chunks with
  | [] => PyResult.indexError
  | first :: rest =>
      PyResult.ok (rest.foldl (fun acc part =>
        mergeLeftOnKey acc (dropNAME part)) first)

/-- The retry loop of lines 57-73 for one chunk ends in `df_chunks`
gaining one frame (`some df`, line 68) or, after all 5 attempts fail,
nothing (`none`); `df_chunks` collects the successes in order. -/
def collectChunks (outcomes : List (Option DataFrame)) : List DataFrame :=
  outcomes.filterMap id

/-- A geometry all of whose rings yield zero valid vertices (the
`xy_tuple`-filtered point list of every ring is empty).  Vacuously true
for the types that carry no rings. -/
def allRingsEmpty [ToString α] : Geometry α → Prop
  | .polygon coords => ∀ ring ∈ coords, ring_pts ring = []
  | .multiPolygon coords => ∀ poly ∈ coords, ∀ ring ∈ poly, ring_pts ring = []
  | .point _ => True
  | .other _ => True

/-- Modelled on the spec's words for claim C5 (not on the code): strip
a property value to its digit characters only, then zero-pad to the
fixed width, unconditionally. -/
def norm_pad_claimed (width : Nat) (v : String) : String :=
  zfill (digits v) width

/-- Modelled on the spec's words for claim C5 (not on the code): strip
to digits, then take the first digit, unconditionally. -/
def norm_bg_claimed (v : String) : String :=
  pyslice (digits v) 0 1

/-- The four components as claim C5 describes the normalization. -/
def normalizedComponents_claimed (p : Props) : String × String × String × String :=
  (norm_pad_claimed 2 (pstrip (getStr p.STATE)),
   norm_pad_claimed 3 (pstrip (getStr p.COUNTY)),
   norm_pad_claimed 6 (pstrip (getStr p.TRACT)),
   norm_bg_claimed (pstrip (getStr p.BLOCK_GROUP)))

/-- The single square ring used by the concrete example features. -/
def squareRing : List (List Int) :=
  [[0, 0], [0, 1], [1, 1], [0, 0]]

/-- A feature with no properties and no geometry. -/
def emptyFeature : Feature Int := {}

/-- A feature whose STATE property has the right width but no digit
characters at all; the other components are valid. -/
def featNoDigitState : Feature Int :=
  { properties := some { STATE := some "ab", COUNTY := some "057",
                         TRACT := some "000100", BLOCK_GROUP := some "1" },
    geometry := some (Geometry.polygon [squareRing]) }

/-- The record the pipeline emits for `featNoDigitState`. -/
def recNoDigitState : Record :=
  { GEOID := "ab0570001001", STATE := "ab", COUNTY := "057",
    TRACT := "000100", BLOCK_GROUP := "1",
    wkt := "POLYGON((0 0, 0 1, 1 1, 0 0))" }

/-- Properties whose STATE value "xy" contains no digit: the code keeps
it verbatim where the spec's normalization would yield "00". -/
def propsStripSkip : Props :=
  { STATE := some "xy", COUNTY := some "057",
    TRACT := some "000100", BLOCK_GROUP := some "1" }

/-- A feature with all identifier properties present and digit-only. -/
def featAllValid : Feature Int :=
  { properties := some { STATE := some "13", COUNTY := some "057",
                         TRACT := some "100", BLOCK_GROUP := some "2" },
    geometry := some (Geometry.polygon [squareRing]) }

/-- The record the pipeline emits for `featAllValid`. -/
def recAllValid : Record :=
  { GEOID := "130570001002", STATE := "13", COUNTY := "057",
    TRACT := "000100", BLOCK_GROUP := "2",
    wkt := "POLYGON((0 0, 0 1, 1 1, 0 0))" }

/-- A feature that supplies a GEOID property that is neither digit-only
nor 12 characters long, next to valid components. -/
def featRawGeoid : Feature Int :=
  { properties := some { GEOID := some " XYZ! ", STATE := some "13",
                         COUNTY := some "057", TRACT := some "100",
                         BLOCK_GROUP := some "2" },
    geometry := some (Geometry.polygon [squareRing]) }

/-- The record the pipeline emits for `featRawGeoid`: the supplied
GEOID string, whitespace-stripped, verbatim. -/
def recRawGeoid : Record :=
  { GEOID := "XYZ!", STATE := "13", COUNTY := "057",
    TRACT := "000100", BLOCK_GROUP := "2",
    wkt := "POLYGON((0 0, 0 1, 1 1, 0 0))" }

/-- A feature with a missing TRACT and a GEOID holding fewer than 12
digits, for the no-derivation/drop claim. -/
def featShortGeoid : Feature Int :=
  { properties := some { GEOID := some "13057", STATE := some "13",
                         COUNTY := some "057", BLOCK_GROUP := some "2" },
    geometry := some (Geometry.polygon [squareRing]) }

/-- A feature whose geometry is a GeoJSON Point. -/
def pointFeature : Feature Int :=
  { properties := none, geometry := some (Geometry.point [0, 0]) }

/-! ## Theorems -/

theorem chunk_step (x : α) (rest : List α) (m : Nat) :
    chunk (x :: rest) (m + 1) =
      (x :: rest).take (m + 1) :: chunk ((x :: rest).drop (m + 1)) (m + 1) := by
  rw [chunk]

theorem chunk_nil (n : Nat) : chunk ([] : List α) n = [] := by
  rw [chunk]

theorem chunk_cons_of_ne (l : List α) (n : Nat) (hl : l ≠ []) (hn : n ≠ 0) :
    chunk l n = l.take n :: chunk (l.drop n) n := by
  cases l with
  | nil => exact absurd rfl hl
  | cons x rest =>
    cases n with
    | zero => exact absurd rfl hn
    | succ m => exact chunk_step x rest m

/-- C9: splitting a list of 45 variables into chunks of size 20 yields
exactly 3 chunks, of sizes 20, 20 and 5, whose concatenation is the
original list (each variable covered exactly once, no overlap). -/
theorem chunk_45_by_20 (l : List α) (h : l.length = 45) :
    (chunk l 20).map List.length = [20, 20, 5] ∧ (chunk l 20).flatten = l := by
  have h0 : l ≠ [] := by intro e; rw [e] at h; simp at h
  have e1 : chunk l 20 = l.take 20 :: chunk (l.drop 20) 20 :=
    chunk_cons_of_ne l 20 h0 (by omega)
  have hlen1 : (l.drop 20).length = 25 := by simp [h]
  have h1 : l.drop 20 ≠ [] := by
    intro e; rw [e] at hlen1; simp at hlen1
  have e2 : chunk (l.drop 20) 20 =
      (l.drop 20).take 20 :: chunk ((l.drop 20).drop 20) 20 :=
    chunk_cons_of_ne _ 20 h1 (by omega)
  have hlen2 : ((l.drop 20).drop 20).length = 5 := by simp [h]
  have h2 : (l.drop 20).drop 20 ≠ [] := by
    intro e; rw [e] at hlen2; simp at hlen2
  have e3 : chunk ((l.drop 20).drop 20) 20 =
      ((l.drop 20).drop 20).take 20 :: chunk (((l.drop 20).drop 20).drop 20) 20 :=
    chunk_cons_of_ne _ 20 h2 (by omega)
  have hlen3 : (((l.drop 20).drop 20).drop 20).length = 0 := by simp [h]
  have h3 : ((l.drop 20).drop 20).drop 20 = [] := List.eq_nil_of_length_eq_zero hlen3
  have e4 : chunk (((l.drop 20).drop 20).drop 20) 20 = [] := by
    rw [h3]; exact chunk_nil 20
  have etake : ((l.drop 20).drop 20).take 20 = (l.drop 20).drop 20 :=
    List.take_of_length_le (by omega)
  constructor
  · rw [e1, e2, e3, e4]
    simp [List.length_take, h, hlen1, hlen2, etake]
  · rw [e1, e2, e3, e4]
    simp only [List.flatten_cons, List.flatten_nil, List.append_nil, etake]
    rw [List.take_append_drop 20 (l.drop 20), List.take_append_drop 20 l]

theorem chunk_45_by_20_witness :
    (chunk (List.range 45) 20).map List.length = [20, 20, 5] ∧
      (chunk (List.range 45) 20).flatten = List.range 45 :=
  chunk_45_by_20 (List.range 45) (by simp)

/-- C7: `geojson_to_wkt` on a Polygon with the single 4-vertex ring
`[[0,0],[0,1],[1,1],[0,0]]` yields exactly
`"POLYGON((0 0, 0 1, 1 1, 0 0))"`; vertices render as `"x y"` and a
z-coordinate, if present, is dropped. -/
theorem polygon_wkt_example :
    geojson_to_wkt (some (Geometry.polygon
        [[[0, 0], [0, 1], [1, 1], [0, 0]]] : Geometry Int)) =
      some "POLYGON((0 0, 0 1, 1 1, 0 0))" ∧
    geojson_to_wkt (some (Geometry.polygon
        [[[(0 : Int), 0, 5], [0, 1, 6], [1, 1, 7], [0, 0, 8]]])) =
      some "POLYGON((0 0, 0 1, 1 1, 0 0))" := by
  exact ⟨rfl, rfl⟩

/-- C1: when every chunk request for a county exhausts its 5 retries
(every outcome is `none`), the merge step is applied to an empty chunk
list and `df_chunks[0]` raises `IndexError` — the county is neither
skipped with a reported failure nor aborted explicitly.  This refutes
the claimed error handling and exhibits the crash the spec flags as a
known fragility. -/
theorem merge_chunks_all_failed (outcomes : List (Option DataFrame))
    (h : ∀ o ∈ outcomes, o = none) :
    merge_chunks (collectChunks outcomes) = PyResult.indexError := by
  have hnil : collectChunks outcomes = [] := by
    rw [collectChunks, List.filterMap_eq_nil_iff]
    intro a ha; simpa using h a ha
  rw [hnil]; rfl

theorem merge_chunks_all_failed_witness :
    merge_chunks (collectChunks [none, none, none]) = PyResult.indexError :=
  merge_chunks_all_failed [none, none, none] (by simp)

/-- C3: deriving components by the fixed-offset slices [0:2], [2:5],
[5:11], [11:12] of the concatenated GEOID is a left inverse of
concatenation on digit strings already padded to widths 2, 3, 6, 1. -/
theorem derive_components_make_geoid (st co tr bg : String)
    (hst : st.length = 2) (hco : co.length = 3)
    (htr : tr.length = 6) (hbg : bg.length = 1)
    (dst : ∀ ch ∈ st.data, ch.isDigit)
    (dco : ∀ ch ∈ co.data, ch.isDigit)
    (dtr : ∀ ch ∈ tr.data, ch.isDigit)
    (dbg : ∀ ch ∈ bg.data, ch.isDigit) :
    derive_components (make_geoid st co tr bg) = (st, co, tr, bg) := by
  obtain ⟨a⟩ := st
  obtain ⟨b⟩ := co
  obtain ⟨c⟩ := tr
  obtain ⟨d⟩ := bg
  have ha : a.length = 2 := hst
  have hb : b.length = 3 := hco
  have hc : c.length = 6 := htr
  have hd : d.length = 1 := hbg
  have hL : (make_geoid ⟨a⟩ ⟨b⟩ ⟨c⟩ ⟨d⟩).data = a ++ (b ++ (c ++ d)) := by
    simp [make_geoid]
  have hfilter : (a ++ (b ++ (c ++ d))).filter Char.isDigit =
      a ++ (b ++ (c ++ d)) := by
    refine List.filter_eq_self.mpr ?_
    intro ch hch
    rcases List.mem_append.mp hch with h1 | h1
    · exact dst ch h1
    rcases List.mem_append.mp h1 with h2 | h2
    · exact dco ch h2
    rcases List.mem_append.mp h2 with h3 | h3
    · exact dtr ch h3
    · exact dbg ch h3
  have hg : digits (make_geoid ⟨a⟩ ⟨b⟩ ⟨c⟩ ⟨d⟩) =
      String.mk (a ++ (b ++ (c ++ d))) := by
    simp [digits, hL, hfilter]
  have hab : (a ++ b).length = 5 := by simp [ha, hb]
  have habc : ((a ++ b) ++ c).length = 11 := by simp [ha, hb, hc]
  have s1 : ((a ++ (b ++ (c ++ d))).drop 0).take 2 = a := by
    rw [List.drop_zero]; exact List.take_left' ha
  have s2 : ((a ++ (b ++ (c ++ d))).drop 2).take 3 = b := by
    rw [List.drop_left' ha]; exact List.take_left' hb
  have s3 : ((a ++ (b ++ (c ++ d))).drop 5).take 6 = c := by
    rw [← List.append_assoc, List.drop_left' hab]; exact List.take_left' hc
  have s4 : ((a ++ (b ++ (c ++ d))).drop 11).take 1 = d := by
    rw [← List.append_assoc, ← List.append_assoc, List.drop_left' habc]
    rw [← hd, List.take_length]
  simp only [derive_components, hg, pyslice, Prod.mk.injEq]
  exact ⟨congrArg String.mk s1, congrArg String.mk s2,
    congrArg String.mk s3, congrArg String.mk s4⟩

theorem derive_components_make_geoid_witness :
    derive_components (make_geoid "13" "057" "000100" "1") =
      ("13", "057", "000100", "1") :=
  derive_components_make_geoid "13" "057" "000100" "1"
    (by decide) (by decide) (by decide) (by decide)
    (by decide) (by decide) (by decide) (by decide)

theorem polygon_rings_of_all_empty [ToString α]
    (coords : List (List (List α)))
    (h : ∀ ring ∈ coords, ring_pts ring = []) :
    polygon_rings coords = [] := by
  rw [polygon_rings, List.filterMap_eq_nil_iff]
  intro ring hring
  simp [h ring hring]

/-- C6: the serializer emits no WKT for a geometry whose type is
neither Polygon nor MultiPolygon, nor for a Polygon/MultiPolygon all
of whose rings yield zero valid vertices (the feature is dropped, not
emitted with an empty-string WKT); in particular a feature whose
geometry has type "Point" contributes no record to the geometry
table. -/
theorem wkt_none_on_degenerate (g : Geometry Int) (f : Feature Int)
    (pc : List Int) :
    (g.typeName ≠ "Polygon" ∧ g.typeName ≠ "MultiPolygon" →
      geojson_to_wkt (some g) = none) ∧
    (allRingsEmpty g → geojson_to_wkt (some g) = none) ∧
    (f.geometry = some (Geometry.point pc) → processFeature f = none) := by
  refine ⟨?_, ?_, ?_⟩
  · intro h
    cases g with
    | polygon coords => exact absurd rfl h.1
    | multiPolygon coords => exact absurd rfl h.2
    | point c => rfl
    | other t => rfl
  · intro h
    cases g with
    | polygon coords =>
      have hr : polygon_rings coords = [] := polygon_rings_of_all_empty coords h
      simp [geojson_to_wkt, hr]
    | multiPolygon coords =>
      have hp : multipolygon_polys coords = [] := by
        rw [multipolygon_polys, List.filterMap_eq_nil_iff]
        intro poly hpoly
        simp [polygon_rings_of_all_empty poly (h poly hpoly)]
      simp [geojson_to_wkt, hp]
    | point c => rfl
    | other t => rfl
  · intro h
    simp [processFeature, h, Geometry.typeName]

theorem wkt_none_on_degenerate_witness :
    geojson_to_wkt (some (Geometry.other "LineString" : Geometry Int)) = none ∧
    geojson_to_wkt (some (Geometry.polygon [[[(7 : Int)], []]])) = none ∧
    processFeature pointFeature = none := by
  refine ⟨?_, ?_, ?_⟩
  · exact (wkt_none_on_degenerate (Geometry.other "LineString")
      emptyFeature []).1 (by decide)
  · exact (wkt_none_on_degenerate (Geometry.polygon [[[(7 : Int)], []]])
      emptyFeature []).2.1 (by
        intro ring hring
        simp only [List.mem_singleton] at hring
        subst hring
        rfl)
  · exact (wkt_none_on_degenerate (Geometry.point ([0, 0] : List Int))
      pointFeature [0, 0]).2.2 rfl

theorem ring_pts_of_valid (r : List (List Int))
    (h : ∀ pt ∈ r, 2 ≤ pt.length) :
    ring_pts r = r.map (fun pt => render_pt pt.headI pt.tail.headI) := by
  induction r with
  | nil => rfl
  | cons pt rest ih =>
    have hpt : 2 ≤ pt.length := h pt (List.mem_cons_self pt rest)
    have ih2 := ih (fun q hq => h q (List.mem_cons_of_mem pt hq))
    cases pt with
    | nil => simp at hpt
    | cons x tl =>
      cases tl with
      | nil => simp at hpt
      | cons y t =>
        rw [show ring_pts ((x :: y :: t) :: rest) =
          render_pt x y :: ring_pts rest from rfl]
        rw [List.map_cons, ih2]
        rfl

theorem intercalate_pair (a b : String) :
    String.intercalate ", " [a, b] = a ++ ", " ++ b := by
  simp [String.intercalate, String.intercalate.go]

theorem intercalate_single (a : String) :
    String.intercalate ", " [a] = a := by
  simp [String.intercalate, String.intercalate.go]

/-- C8: on a MultiPolygon of two single-ring polygons with non-empty
(valid-vertex) rings the serializer yields
`MULTIPOLYGON(((...)), ((...)))`, the polygons appearing in input
order and each ring's vertices rendered in input order (`ring_pts` is
the order-preserving vertex map). -/
theorem multipolygon_two_order (r1 r2 : List (List Int))
    (h1 : r1 ≠ []) (h2 : r2 ≠ [])
    (hv1 : ∀ pt ∈ r1, 2 ≤ pt.length) (hv2 : ∀ pt ∈ r2, 2 ≤ pt.length) :
    geojson_to_wkt (some (Geometry.multiPolygon [[r1], [r2]])) =
      some ("MULTIPOLYGON(((" ++ String.intercalate ", " (ring_pts r1) ++
        ")), ((" ++ String.intercalate ", " (ring_pts r2) ++ ")))") ∧
    ring_pts r1 = r1.map (fun pt => render_pt pt.headI pt.tail.headI) ∧
    ring_pts r2 = r2.map (fun pt => render_pt pt.headI pt.tail.headI) := by
  have e1 : ring_pts r1 ≠ [] := by
    rw [ring_pts_of_valid r1 hv1]
    simpa using h1
  have e2 : ring_pts r2 ≠ [] := by
    rw [ring_pts_of_valid r2 hv2]
    simpa using h2
  have p1 : polygon_rings [r1] =
      ["(" ++ String.intercalate ", " (ring_pts r1) ++ ")"] := by
    simp [polygon_rings, List.filterMap_cons, List.isEmpty_iff, e1]
  have p2 : polygon_rings [r2] =
      ["(" ++ String.intercalate ", " (ring_pts r2) ++ ")"] := by
    simp [polygon_rings, List.filterMap_cons, List.isEmpty_iff, e2]
  have mp : multipolygon_polys [[r1], [r2]] =
      ["(" ++ ("(" ++ String.intercalate ", " (ring_pts r1) ++ ")") ++ ")",
       "(" ++ ("(" ++ String.intercalate ", " (ring_pts r2) ++ ")") ++ ")"] := by
    simp [multipolygon_polys, List.filterMap_cons, p1, p2, intercalate_single]
  refine ⟨?_, ring_pts_of_valid r1 hv1, ring_pts_of_valid r2 hv2⟩
  show (let polys := multipolygon_polys [[r1], [r2]]
        if polys.isEmpty then none
        else some ("MULTIPOLYGON(" ++ String.intercalate ", " polys ++ ")")) = _
  rw [mp]
  simp only [List.isEmpty_cons, Bool.false_eq_true, if_false, intercalate_pair]
  refine congrArg some ?_
  rw [show (")), ((" : String) = ")" ++ ")" ++ ", " ++ "(" ++ "(" from rfl]
  rw [show (")))" : String) = ")" ++ ")" ++ ")" from rfl]
  rw [show ("MULTIPOLYGON(((" : String) = "MULTIPOLYGON(" ++ "(" ++ "(" from rfl]
  simp only [String.append_assoc]

theorem multipolygon_two_order_witness :
    geojson_to_wkt (some (Geometry.multiPolygon
        [[[[(0 : Int), 0], [0, 1], [1, 1], [0, 0]]],
         [[[(2 : Int), 2], [2, 3], [3, 3], [2, 2]]]])) =
      some ("MULTIPOLYGON(((" ++ String.intercalate ", "
          (ring_pts [[(0 : Int), 0], [0, 1], [1, 1], [0, 0]]) ++
        ")), ((" ++ String.intercalate ", "
          (ring_pts [[(2 : Int), 2], [2, 3], [3, 3], [2, 2]]) ++ ")))") ∧
    ring_pts [[(0 : Int), 0], [0, 1], [1, 1], [0, 0]] =
      [[(0 : Int), 0], [0, 1], [1, 1], [0, 0]].map
        (fun pt => render_pt pt.headI pt.tail.headI) ∧
    ring_pts [[(2 : Int), 2], [2, 3], [3, 3], [2, 2]] =
      [[(2 : Int), 2], [2, 3], [3, 3], [2, 2]].map
        (fun pt => render_pt pt.headI pt.tail.headI) :=
  multipolygon_two_order
    [[(0 : Int), 0], [0, 1], [1, 1], [0, 0]]
    [[(2 : Int), 2], [2, 3], [3, 3], [2, 2]]
    (by decide) (by decide) (by decide) (by decide)

theorem processFeature_some_spec [ToString α] (f : Feature α) (r : Record)
    (h : processFeature f = some r) :
    r.STATE = (derivedComponents (featureProps f)).1 ∧
    r.COUNTY = (derivedComponents (featureProps f)).2.1 ∧
    r.TRACT = (derivedComponents (featureProps f)).2.2.1 ∧
    r.BLOCK_GROUP = (derivedComponents (featureProps f)).2.2.2 ∧
    r.STATE.length = 2 ∧ r.COUNTY.length = 3 ∧ r.TRACT.length = 6 ∧
    r.BLOCK_GROUP.length = 1 ∧
    r.GEOID = (if rawGeoid (featureProps f) = "" then
      make_geoid r.STATE r.COUNTY r.TRACT r.BLOCK_GROUP
      else rawGeoid (featureProps f)) := by
  cases hg : f.geometry with
  | none =>
    simp only [processFeature, hg] at h
    exact Option.noConfusion h
  | some geom =>
    simp only [processFeature, hg] at h
    by_cases htype : geom.typeName = "Polygon" ∨ geom.typeName = "MultiPolygon"
    · rw [if_pos htype] at h
      cases hw : geojson_to_wkt (some geom) with
      | none =>
        simp only [hw] at h
        exact Option.noConfusion h
      | some wkt =>
        simp only [hw] at h
        by_cases hempty : wkt = ""
        · rw [if_pos hempty] at h; exact Option.noConfusion h
        · rw [if_neg hempty] at h
          by_cases hval : (derivedComponents (featureProps f)).1 ≠ "" ∧
              (derivedComponents (featureProps f)).2.1 ≠ "" ∧
              (derivedComponents (featureProps f)).2.2.1 ≠ "" ∧
              (derivedComponents (featureProps f)).2.2.2 ≠ ""
          · rw [if_pos hval] at h
            by_cases hlen : (derivedComponents (featureProps f)).1.length = 2 ∧
                (derivedComponents (featureProps f)).2.1.length = 3 ∧
                (derivedComponents (featureProps f)).2.2.1.length = 6 ∧
                (derivedComponents (featureProps f)).2.2.2.length = 1
            · rw [if_pos hlen] at h
              have hr := Option.some.inj h
              subst hr
              exact ⟨rfl, rfl, rfl, rfl, hlen.1, hlen.2.1, hlen.2.2.1,
                hlen.2.2.2, rfl⟩
            · rw [if_neg hlen] at h; exact Option.noConfusion h
          · rw [if_neg hval] at h; exact Option.noConfusion h
    · rw [if_neg htype] at h; exact Option.noConfusion h

/-- C2 as stated is false: `featNoDigitState` passes validation and
emits `recNoDigitState`, whose STATE component "ab" has the exact
width 2 but is not a digit-only string — the final validation of lines
221-225 checks lengths only, never digit-only content. -/
theorem component_digit_only_counterexample :
    processFeature featNoDigitState = some recNoDigitState ∧
    recNoDigitState.STATE.data.all Char.isDigit = false :=
  ⟨rfl, rfl⟩

/-- C2 (amended): every record emitted by the geometry fetcher has
state, county, tract and block group of widths exactly 2, 3, 6 and 1
(a feature failing a width check is dropped); the digit-only half of
the claimed invariant is not enforced, so a component whose raw value
contained no digit can be emitted verbatim at the right width. -/
theorem emitted_component_widths (f : Feature Int) (r : Record)
    (h : processFeature f = some r) :
    r.STATE.length = 2 ∧ r.COUNTY.length = 3 ∧ r.TRACT.length = 6 ∧
    r.BLOCK_GROUP.length = 1 := by
  obtain ⟨-, -, -, -, h2, h3, h6, h1, -⟩ := processFeature_some_spec f r h
  exact ⟨h2, h3, h6, h1⟩

theorem emitted_component_widths_witness :
    recAllValid.STATE.length = 2 ∧ recAllValid.COUNTY.length = 3 ∧
    recAllValid.TRACT.length = 6 ∧ recAllValid.BLOCK_GROUP.length = 1 :=
  emitted_component_widths featAllValid recAllValid rfl

/-- C10: a kept feature whose supplied (whitespace-stripped) GEOID is
non-empty emits that string verbatim as the record's GEOID — no
digit-only, length-12 or consistency check against the validated
components; only when the supplied GEOID is empty is the output GEOID
synthesized by concatenating the four validated components. -/
theorem geoid_passthrough (f : Feature Int) (r : Record)
    (h : processFeature f = some r) :
    (rawGeoid (featureProps f) ≠ "" → r.GEOID = rawGeoid (featureProps f)) ∧
    (rawGeoid (featureProps f) = "" →
      r.GEOID = make_geoid r.STATE r.COUNTY r.TRACT r.BLOCK_GROUP) := by
  obtain ⟨-, -, -, -, -, -, -, -, hg⟩ := processFeature_some_spec f r h
  constructor
  · intro hne
    rw [hg, if_neg hne]
  · intro he
    rw [hg, if_pos he]

theorem geoid_passthrough_witness :
    recRawGeoid.GEOID = rawGeoid (featureProps featRawGeoid) :=
  (geoid_passthrough featRawGeoid recRawGeoid rfl).1 (by decide)

/-- C4: when some component is still missing after normalization and
the supplied GEOID holds fewer than 12 digits, GEOID-based derivation
is not attempted (the derived components equal the normalized ones
unchanged) and the feature is dropped from the output. -/
theorem short_geoid_no_derive_drop (f : Feature Int)
    (hmiss : (normalizedComponents (featureProps f)).1 = "" ∨
      (normalizedComponents (featureProps f)).2.1 = "" ∨
      (normalizedComponents (featureProps f)).2.2.1 = "" ∨
      (normalizedComponents (featureProps f)).2.2.2 = "")
    (hshort : (digits (rawGeoid (featureProps f))).length < 12) :
    derivedComponents (featureProps f) = normalizedComponents (featureProps f) ∧
    processFeature f = none := by
  have hder : derivedComponents (featureProps f) =
      normalizedComponents (featureProps f) := by
    unfold derivedComponents fillFromGeoid
    by_cases hg : rawGeoid (featureProps f) = ""
    · rw [if_neg (fun hcond => hcond.2 hg)]
    · rw [if_pos ⟨hmiss, hg⟩, if_neg (by omega)]
  have hval : ¬((derivedComponents (featureProps f)).1 ≠ "" ∧
      (derivedComponents (featureProps f)).2.1 ≠ "" ∧
      (derivedComponents (featureProps f)).2.2.1 ≠ "" ∧
      (derivedComponents (featureProps f)).2.2.2 ≠ "") := by
    rw [hder]
    rcases hmiss with h | h | h | h <;> simp [h]
  refine ⟨hder, ?_⟩
  cases hg : f.geometry with
  | none => simp [processFeature, hg]
  | some geom =>
    simp only [processFeature, hg]
    by_cases htype : geom.typeName = "Polygon" ∨ geom.typeName = "MultiPolygon"
    · rw [if_pos htype]
      cases hw : geojson_to_wkt (some geom) with
      | none => simp only [hw]
      | some wkt =>
        simp only [hw]
        by_cases hempty : wkt = ""
        · rw [if_pos hempty]
        · rw [if_neg hempty, if_neg hval]
    · rw [if_neg htype]

theorem short_geoid_no_derive_drop_witness :
    derivedComponents (featureProps featShortGeoid) =
      normalizedComponents (featureProps featShortGeoid) ∧
    processFeature featShortGeoid = none :=
  short_geoid_no_derive_drop featShortGeoid (by decide) (by decide)

/-- C5 as stated is false: on the digit-less STATE value "xy" the
code's normalization keeps the stripped value "xy" verbatim, whereas
stripping every property value to its digits and zero-padding state to
2 digits would yield "00". -/
theorem normalization_claim_counterexample :
    normalizedComponents propsStripSkip ≠
      normalizedComponents_claimed propsStripSkip ∧
    (normalizedComponents propsStripSkip).1 = "xy" ∧
    (normalizedComponents_claimed propsStripSkip).1 = "00" := by
  decide

/-- C5 (amended): the strip-to-digits-then-pad (and first-digit for
block group) normalization is applied to a property value only when
the value contains at least one digit; a value with no digits is left
as its whitespace-stripped form, unpadded and unstripped. -/
theorem normalization_amended (p : Props)
    (hs : digits (pstrip (getStr p.STATE)) ≠ "")
    (hc : digits (pstrip (getStr p.COUNTY)) ≠ "")
    (ht : digits (pstrip (getStr p.TRACT)) ≠ "")
    (hb : digits (pstrip (getStr p.BLOCK_GROUP)) ≠ "") :
    normalizedComponents p = normalizedComponents_claimed p ∧
    (∀ v width, digits v = "" → norm_pad width v = v ∧ norm_bg v = v) := by
  constructor
  · simp only [normalizedComponents, normalizedComponents_claimed, norm_pad,
      norm_bg, norm_pad_claimed, norm_bg_claimed]
    rw [if_neg hs, if_neg hc, if_neg ht, if_neg hb]
  · intro v width hv
    simp [norm_pad, norm_bg, hv]

theorem normalization_amended_witness :
    normalizedComponents (featureProps featAllValid) =
      normalizedComponents_claimed (featureProps featAllValid) ∧
    (∀ v width, digits v = "" → norm_pad width v = v ∧ norm_bg v = v) :=
  normalization_amended (featureProps featAllValid)
    (by decide) (by decide) (by decide) (by decide)

end DownloadAcs
